import Mathlib

/- Shallow embedding of src/app.py, the MSTR Bitcoin Treasury dashboard.
   Rational numbers stand in for Python floats: every operation the claims
   touch is an exact field operation on decimal literals, so the rational
   model agrees with the float code up to the usual float-rounding caveat.
   Real numbers are used for the power-law forecast, whose exponentiation
   with non-integer exponents is real rpow. -/

/-- Funding sources enumerated at src/app.py line 95. -/
inductive FundingSource where
  | CommonStock
  | ConvertibleDebt
  | STRC
  | STRK
  | STRD
  | STRF
  | STRE
deriving DecidableEq

/-- The list named sources at src/app.py line 95, in source order. -/
def sources : List FundingSource :=
  [.CommonStock, .ConvertibleDebt, .STRC, .STRK, .STRD, .STRF, .STRE]

/-- Per-record funding allocation of assign_funding_sources, src/app.py
lines 97-115: the report-date year picks a period bucket and the record
acquisition is multiplied by the bucket weight of each source. -/
def funding_alloc (year : ℤ) (acq : ℚ) : FundingSource → ℚ
  | .CommonStock =>
      if year ≤ 2022 then acq * 0.2
      else if year = 2023 ∨ year = 2024 then acq * 0.7
      else acq * 0.5
  | .ConvertibleDebt =>
      if year ≤ 2022 then acq * 0.8
      else if year = 2023 ∨ year = 2024 then acq * 0.3
      else 0
  | .STRC | .STRK | .STRD | .STRF | .STRE =>
      if year ≤ 2022 then 0
      else if year = 2023 ∨ year = 2024 then 0
      else acq * 0.1

/-- Sum of the per-source allocations of one record over all seven sources. -/
def alloc_sum (year : ℤ) (acq : ℚ) : ℚ := (sources.map (funding_alloc year acq)).sum

/-- Premium to NAV, src/app.py line 171: the quotient when nav is positive,
the numeric value 0 otherwise. -/
def premium_to_nav (market_cap nav : ℚ) : ℚ := if 0 < nav then market_cap / nav else 0

/-- Premium to NAV following the spec wording of section 4.1: defined only
when nav is positive, otherwise unavailable. This second definition is
written from the spec, for the refinement claim C1, to compare with
premium_to_nav taken from the source. -/
def premium_to_nav_spec (market_cap nav : ℚ) : Option ℚ :=
  if 0 < nav then some (market_cap / nav) else none

lemma alloc_sum_eq (year : ℤ) (acq : ℚ) : alloc_sum year acq = acq := by
  unfold alloc_sum sources funding_alloc
  simp only [List.map_cons, List.map_nil, List.sum_cons, List.sum_nil]
  split_ifs <;> ring

/-- C2: for every purchase record the Funding Attribution Engine allocates
btcAcquired times the period-bucket weight of each source, the per-source
allocations sum to btcAcquired (exactly, hence within tolerance 1e-6), and
a year-2021 record with btcAcquired = 10000 is allocated
ConvertibleDebt 8000, CommonStock 2000, and 0 for every other source. -/
theorem c2_allocation_sums (year : ℤ) (acq : ℚ) :
    alloc_sum year acq = acq ∧
    |alloc_sum year acq - acq| ≤ 1 / 1000000 ∧
    funding_alloc 2021 10000 .ConvertibleDebt = 8000 ∧
    funding_alloc 2021 10000 .CommonStock = 2000 ∧
    funding_alloc 2021 10000 .STRC = 0 ∧
    funding_alloc 2021 10000 .STRK = 0 ∧
    funding_alloc 2021 10000 .STRD = 0 ∧
    funding_alloc 2021 10000 .STRF = 0 ∧
    funding_alloc 2021 10000 .STRE = 0 ∧
    funding_alloc 2023 10 .CommonStock = 7 ∧
    funding_alloc 2023 10 .ConvertibleDebt = 3 ∧
    funding_alloc 2025 10 .CommonStock = 5 ∧
    funding_alloc 2025 10 .STRC = 1 := by
  refine ⟨alloc_sum_eq year acq, ?_, ?_⟩
  · rw [alloc_sum_eq]; simp
  · norm_num [funding_alloc]

/-- C1, counterexample: the source substitutes the numeric value 0 when
nav is not positive (src/app.py line 171), so a caller cannot distinguish
the not-computable case nav = -1 from the genuine zero ratio at
marketCap = 0, nav = 1; the spec reading returns no value instead. -/
theorem c1_counterexample :
    premium_to_nav 5 (-1) = 0 ∧ premium_to_nav 0 1 = 0 ∧
    premium_to_nav_spec 5 (-1) = none ∧ premium_to_nav_spec 0 1 = some 0 := by
  refine ⟨?_, ?_, ?_, ?_⟩ <;> norm_num [premium_to_nav, premium_to_nav_spec]

/-- C1, amended: premiumToNav equals marketCap / nav when nav is positive;
when nav is not positive the code substitutes the numeric value 0,
conflating not-computable with a genuine zero ratio. -/
theorem c1_amended_premium_to_nav (market_cap nav : ℚ) :
    (0 < nav → premium_to_nav market_cap nav = market_cap / nav) ∧
    (nav ≤ 0 → premium_to_nav market_cap nav = 0) := by
  constructor
  · intro h; simp [premium_to_nav, h]
  · intro h; simp [premium_to_nav, not_lt.mpr h]

theorem c1_witness : (0 : ℚ) < 4 ∧ premium_to_nav 60 4 = 60 / 4 :=
  ⟨by norm_num, (c1_amended_premium_to_nav 60 4).1 (by norm_num)⟩

/- Valuation block, src/app.py lines 158-171. The approximate balance-sheet
constants are those of lines 163-165. -/

/-- Approximate debt constant, src/app.py line 163. -/
def approx_debt : ℚ := 8000000000

/-- Approximate preferred notional constant, src/app.py line 164. -/
def approx_preferred_notional : ℚ := 8000000000

/-- Approximate cash constant, src/app.py line 165. -/
def approx_cash : ℚ := 2190000000

/-- Net liabilities, src/app.py line 166. -/
def net_liabilities : ℚ := approx_debt + approx_preferred_notional - approx_cash

/-- Treasury value, src/app.py line 159. -/
def treasury_value (btc_holdings btc_price : ℚ) : ℚ := btc_holdings * btc_price

/-- BTC per share, src/app.py line 160: guarded quotient, 0 when shares
outstanding is not positive. -/
def btc_per_share (btc_holdings shares_outstanding : ℚ) : ℚ :=
  if 0 < shares_outstanding then btc_holdings / shares_outstanding else 0

/-- Enterprise value, src/app.py line 168. -/
def enterprise_value (market_cap : ℚ) : ℚ := market_cap + net_liabilities

/-- NAV, src/app.py line 170. -/
def nav (tv : ℚ) : ℚ := tv - net_liabilities

/-- Truthiness of the optional BTC price in the guard of src/app.py
line 158: a Python float is truthy when present and nonzero. -/
def price_truthy : Option ℚ → Bool
  | none => false
  | some p => decide (p ≠ 0)

/-- The guard of src/app.py line 158: the valuation block runs only when
the BTC price is truthy and the market cap is positive. -/
def main_guard (btc_price : Option ℚ) (market_cap : ℚ) : Bool :=
  price_truthy btc_price && decide (0 < market_cap)

/-- C7: end-to-end valuation scenario. With bitcoinHeld 687410, spot price
95000, marketCap 60e9, sharesOutstanding 250e6 and the liability constants
of the source, the guard passes and the block yields
netLiabilities 13.81e9, treasuryValue 65303950000, nav 51493950000,
premiumToNav in (1.165, 1.166), and btcPerShare within 1e-5 of 0.00275. -/
theorem c7_end_to_end :
    main_guard (some 95000) 60000000000 = true ∧
    net_liabilities = 13810000000 ∧
    treasury_value 687410 95000 = 65303950000 ∧
    nav (treasury_value 687410 95000) = 51493950000 ∧
    1165 / 1000 < premium_to_nav 60000000000 (nav (treasury_value 687410 95000)) ∧
    premium_to_nav 60000000000 (nav (treasury_value 687410 95000)) < 1166 / 1000 ∧
    274 / 100000 < btc_per_share 687410 250000000 ∧
    btc_per_share 687410 250000000 < 276 / 100000 := by
  norm_num [main_guard, price_truthy, net_liabilities, approx_debt,
    approx_preferred_notional, approx_cash, treasury_value, nav,
    premium_to_nav, btc_per_share]

/- STRC at-the-money issuance estimator, src/app.py lines 206-224. -/

/-- ATM price threshold, src/app.py line 208. -/
def atm_threshold : ℚ := 100.05

/-- ATM fraction of above-threshold volume, src/app.py line 209. -/
def atm_pct : ℚ := 0.40

/-- Commission rate, src/app.py line 210. -/
def commission : ℚ := 0.025

/-- Volume above threshold, src/app.py lines 212-219: full volume when the
whole range is at or above the threshold, zero when the high is below it,
otherwise the clamped interpolation fraction of the volume. -/
def volume_above (high low daily_volume : ℚ) : ℚ :=
  if atm_threshold ≤ high then
    if atm_threshold ≤ low then daily_volume
    else daily_volume * max 0 (min 1 ((high - atm_threshold) / (high - low)))
  else 0

/-- Estimated BTC acquired from STRC issuance, src/app.py lines 221-224. -/
def est_btc_from_strc (high low daily_volume last_price btc_price : ℚ) : ℚ :=
  let est_shares_issued := volume_above high low daily_volume * atm_pct
  let gross_proceeds := est_shares_issued * last_price
  let net_proceeds := gross_proceeds * (1 - commission)
  if 0 < btc_price then net_proceeds / btc_price else 0

/-- C5: the preferred at-the-money issuance estimator. With non-negative
daily volume: a high below the threshold yields zero volume above and zero
BTC acquired for any spot price; a low at or above the threshold (the high
not being below it) yields the whole daily volume; otherwise the divisor
high - low is strictly positive, so the interpolation branch never divides
by zero, and the clamped fraction is used; in particular
high = low = threshold yields the whole daily volume. -/
theorem c5_strc_estimator (high low daily_volume last_price btc_price : ℚ)
    (hdv : 0 ≤ daily_volume) :
    (high < atm_threshold →
      volume_above high low daily_volume = 0 ∧
      est_btc_from_strc high low daily_volume last_price btc_price = 0) ∧
    (atm_threshold ≤ high → atm_threshold ≤ low →
      volume_above high low daily_volume = daily_volume) ∧
    (atm_threshold ≤ high → low < atm_threshold →
      0 < high - low ∧
      volume_above high low daily_volume =
        daily_volume * max 0 (min 1 ((high - atm_threshold) / (high - low)))) ∧
    volume_above atm_threshold atm_threshold daily_volume = daily_volume := by
  refine ⟨?_, ?_, ?_, ?_⟩
  · intro h
    have h1 : volume_above high low daily_volume = 0 := by
      simp [volume_above, not_le.mpr h]
    refine ⟨h1, ?_⟩
    simp only [est_btc_from_strc, h1]
    split <;> norm_num
  · intro h1 h2; simp [volume_above, h1, h2]
  · intro h1 h2
    refine ⟨by linarith, ?_⟩
    simp [volume_above, h1, not_le.mpr h2]
  · simp [volume_above]

theorem c5_witness :
    (0 : ℚ) ≤ 1000 ∧ (50 : ℚ) < atm_threshold ∧
    volume_above 50 40 1000 = 0 ∧ est_btc_from_strc 50 40 1000 7 95000 = 0 := by
  have h := (c5_strc_estimator 50 40 1000 7 95000 (by norm_num)).1
    (by norm_num [atm_threshold])
  exact ⟨by norm_num, by norm_num [atm_threshold], h.1, h.2⟩

/- Common stock issuance estimator, src/app.py lines 236-247. -/

/-- Issuance fraction of daily volume, src/app.py lines 238-243: a
piecewise-linear curve in the premium to NAV. -/
def issuance_pct (premium : ℚ) : ℚ :=
  if premium ≤ 1 then 0.001
  else if 3 ≤ premium then 0.05
  else 0.001 + 0.049 * ((premium - 1) / 2)

/-- Estimated BTC acquired from common issuance, src/app.py lines 245-247. -/
def est_btc_from_common (premium daily_volume last_price btc_price : ℚ) : ℚ :=
  let est_new_common_shares := daily_volume * issuance_pct premium
  let est_proceeds_common := est_new_common_shares * last_price
  if 0 < btc_price then est_proceeds_common / btc_price else 0

/-- C6: the common issuance estimator yields fraction 0.001 at or below
premium 1, 0.05 at or above premium 3, the linear interpolation strictly in
between, exactly 0.0255 at premium 2, and BTC acquired equal to
dailyVolume times fraction times lastPrice over the spot price when the
spot price is positive, else 0. -/
theorem c6_common_estimator (premium daily_volume last_price btc_price : ℚ) :
    (premium ≤ 1 → issuance_pct premium = 0.001) ∧
    (3 ≤ premium → issuance_pct premium = 0.05) ∧
    (1 < premium → premium < 3 →
      issuance_pct premium = 0.001 + 0.049 * ((premium - 1) / 2)) ∧
    issuance_pct 2 = 0.0255 ∧
    (0 < btc_price →
      est_btc_from_common premium daily_volume last_price btc_price =
        daily_volume * issuance_pct premium * last_price / btc_price) ∧
    (btc_price ≤ 0 →
      est_btc_from_common premium daily_volume last_price btc_price = 0) := by
  refine ⟨?_, ?_, ?_, ?_, ?_, ?_⟩
  · intro h; simp [issuance_pct, h]
  · intro h; simp [issuance_pct, h]; intro h1; linarith
  · intro h1 h2; simp [issuance_pct, not_le.mpr h1, not_le.mpr h2]
  · norm_num [issuance_pct]
  · intro h; simp [est_btc_from_common, h]
  · intro h; simp [est_btc_from_common, not_lt.mpr h]

theorem c6_witness :
    (0 : ℚ) < 95000 ∧
    est_btc_from_common 2 1000 7 95000 = 1000 * issuance_pct 2 * 7 / 95000 :=
  ⟨by norm_num, (c6_common_estimator 2 1000 7 95000).2.2.2.2.1 (by norm_num)⟩

/-- C10: for every premium input, including the degenerate 0 substituted
when nav is not positive, the issuance fraction lies in the closed interval
from 0.001 to 0.05, and the fraction is monotone non-decreasing in the
premium. -/
theorem c10_fraction_bounds_mono :
    (∀ p : ℚ, 0.001 ≤ issuance_pct p ∧ issuance_pct p ≤ 0.05) ∧
    (∀ p q : ℚ, p ≤ q → issuance_pct p ≤ issuance_pct q) := by
  have hb : ∀ p : ℚ, 0.001 ≤ issuance_pct p ∧ issuance_pct p ≤ 0.05 := by
    intro p
    unfold issuance_pct
    split_ifs with h1 h2
    · norm_num
    · norm_num
    · push_neg at h1 h2
      constructor <;> nlinarith
  refine ⟨hb, ?_⟩
  intro p q hpq
  unfold issuance_pct
  split_ifs with h1 h2 h3 h4 h5 h6 h7
  all_goals push_neg at *
  all_goals linarith

theorem c10_witness : issuance_pct 0 ≤ issuance_pct 2 :=
  c10_fraction_bounds_mono.2 0 2 (by norm_num)

/- Purchase history provider, src/app.py lines 66-91, and the ledger data
model used by the attribution and forecast chain. -/

/-- One purchase ledger row: report year, BTC acquired, and the reported
cumulative holdings. The source keeps full report dates; only the year
enters the attribution and forecast computations, so the date ordering of
the ledger is carried by the list order together with the year order. -/
structure PRecord where
  year : ℤ
  acq : ℚ
  cum : ℚ
deriving DecidableEq

/-- Fallback sample ledger of get_historical_purchases, src/app.py
lines 83-88; report dates 2020-08-11, 2021-02-24, 2024-03-11, 2025-12-15
and 2026-01-12 reduced to their years. -/
def fallback_sample : List PRecord :=
  [⟨2020, 21454, 21454⟩, ⟨2021, 19452, 90000⟩, ⟨2024, 12000, 300000⟩,
   ⟨2025, 10645, 671268⟩, ⟨2026, 13627, 687410⟩]

/-- Outcome of fetching the purchases page, src/app.py lines 67-91: the
page has the expected table (carried already parsed, since the pandas
munging of lines 74-78 is provider-side parsing), the page lacks the
table, or an exception is raised during fetch or parsing. -/
inductive FetchOutcome where
  | table (rows : List PRecord)
  | noTable
  | exn

/-- get_historical_purchases, src/app.py lines 67-91: the parsed table
when present, the fallback sample when the table is missing (line 88), and
the empty frame when an exception is raised (line 91). -/
def get_historical_purchases : FetchOutcome → List PRecord
  | .table rows => rows
  | .noTable => fallback_sample
  | .exn => []

/-- The guard of src/app.py line 261: the attribution and forecast chain
runs only on a nonempty ledger. -/
def chart_guard (l : List PRecord) : Bool := !l.isEmpty

/-- Running sums: cumsum_from init xs lists the partial sums of xs, each
shifted by init. Models the pandas cumsum of a column plus a chained
starting value (src/app.py lines 117, 128-136 and 143). -/
def cumsum_from {α : Type} [Add α] (init : α) : List α → List α
  | [] => []
  | x :: xs => (init + x) :: cumsum_from (init + x) xs

/-- Maximum of a column with a default for the empty frame; models the
pandas max over a column (src/app.py lines 263-264). -/
def col_max {α : Type} [LinearOrder α] (d : α) : List α → α
  | [] => d
  | [x] => x
  | x :: y :: t => max x (col_max d (y :: t))

/-- The report year of the newest ledger row, src/app.py line 263 (the max
of the report dates, taken by year). -/
def last_report_year (l : List PRecord) : ℤ := col_max 0 (l.map (·.year))

/-- The max of the reported cumulative column, src/app.py line 264. -/
def last_cum_btc (l : List PRecord) : ℚ := col_max 0 (l.map (·.cum))

/-- Historical per-source allocation column of assign_funding_sources,
src/app.py lines 97-115. -/
def hist_alloc_col (l : List PRecord) (s : FundingSource) : List ℚ :=
  l.map fun r => funding_alloc r.year r.acq s

/-- Historical per-source cumulative column, src/app.py lines 116-117. -/
def hist_cum_col (l : List PRecord) (s : FundingSource) : List ℚ :=
  cumsum_from 0 (hist_alloc_col l s)

/- Calendar arithmetic for the forecast dates. Python date subtraction is
a difference of proleptic Gregorian ordinals; date_ordinal below is that
ordinal (days from 0001-01-01, that date being day 1). -/

/-- Gregorian leap year test. -/
def is_leap (y : ℤ) : Bool :=
  decide ((y % 4 = 0 ∧ y % 100 ≠ 0) ∨ y % 400 = 0)

/-- Days in the months before month m of a year (0 for January). -/
def days_in_months_before (m : ℤ) (leap : Bool) : ℤ :=
  let base : ℤ :=
    if m ≤ 1 then 0
    else if m = 2 then 31
    else if m = 3 then 59
    else if m = 4 then 90
    else if m = 5 then 120
    else if m = 6 then 151
    else if m = 7 then 181
    else if m = 8 then 212
    else if m = 9 then 243
    else if m = 10 then 273
    else if m = 11 then 304
    else 334
  if leap = true ∧ 3 ≤ m then base + 1 else base

/-- Proleptic Gregorian ordinal of a date, as used by Python date
subtraction at src/app.py line 130. -/
def date_ordinal (y m d : ℤ) : ℤ :=
  365 * (y - 1) + (y - 1) / 4 - (y - 1) / 100 + (y - 1) / 400
    + days_in_months_before m (is_leap y) + d

/-- Ordinal of the genesis date 2009-01-03, src/app.py line 122. -/
def genesis_ordinal : ℤ := date_ordinal 2009 1 3

noncomputable section

/-- Elapsed years since the genesis date, src/app.py lines 130-131. -/
def elapsed_years (y m d : ℤ) : ℝ :=
  ((date_ordinal y m d - genesis_ordinal : ℤ) : ℝ) / 365.25

/-- Power-law projected price for the year-end date of a forecast year,
src/app.py line 132. -/
def proj_price (year : ℤ) : ℝ :=
  (10 : ℝ) ^ (-1.847796462 : ℝ) * elapsed_years year 12 31 ^ (5.616314045 : ℝ)

/-- Annual raise assumption, src/app.py line 123. -/
def annual_raise : ℝ := 10000000000

/-- Forecast BTC added in one future year, src/app.py line 133. -/
def btc_added (year : ℤ) : ℝ := annual_raise / proj_price year

/-- Forecast per-source split of one year, src/app.py lines 137-141. -/
def forecast_alloc (b : ℝ) : FundingSource → ℝ
  | .CommonStock => b * 0.3
  | .ConvertibleDebt => b * 0.1
  | .STRC | .STRK | .STRD | .STRF | .STRE => b * 0.12

/-- The ten forecast year increments, src/app.py lines 124-134: one per
future year-end, from the year after the last report year. -/
def forecast_added (y0 : ℤ) : List ℝ :=
  (List.range 10).map fun k : ℕ => btc_added (y0 + 1 + (k : ℤ))

/-- Cumulative BTC column of the concatenated frame, src/app.py lines 128,
135-136 and 266: the reported historical cumulative column followed by the
forecast cumulative totals, which chain from the max historical
cumulative. -/
def concat_total_series (l : List PRecord) : List ℝ :=
  l.map (fun r : PRecord => (r.cum : ℝ)) ++
    cumsum_from ((last_cum_btc l : ℚ) : ℝ) (forecast_added (last_report_year l))

/-- Per-source cumulative column of the concatenated frame: the historical
cumulative column of lines 116-117 followed by the forecast per-source
cumulative of src/app.py line 143 with the name df read as the historical
frame, which is the evident intent of that line; see global_df below for
the name resolution the interpreter actually performs there. -/
def concat_source_series (l : List PRecord) (s : FundingSource) : List ℝ :=
  (hist_cum_col l s).map (fun q : ℚ => (q : ℝ)) ++
    cumsum_from (((hist_cum_col l s).getLastD 0 : ℚ) : ℝ)
      ((forecast_added (last_report_year l)).map fun b => forecast_alloc b s)

/-- The module-level binding of the name df read at src/app.py line 143.
The name df is assigned nowhere at module level (the historical frame is
bound to df_hist at line 260 and the parameters of forecast_acquisitions
are last_date, last_cum_btc and sources), so the lookup yields nothing. -/
def global_df : Option (FundingSource → List ℚ) := none

/-- The per-source cumulative column computed by src/app.py lines 142-143:
the name df resolves as a module global there; an unbound global raises
NameError, modelled as the error value. -/
def forecast_cum_source_col (y0 : ℤ) (s : FundingSource) : Except String (List ℝ) :=
  match global_df with
  | none => Except.error "NameError: name df is not defined"
  | some frame =>
      Except.ok (cumsum_from (((frame s).getLastD 0 : ℚ) : ℝ)
        ((forecast_added y0).map fun b => forecast_alloc b s))

end

/-- C9, counterexample: on an exception during fetch or parsing the
provider returns the empty frame (src/app.py line 91), not the fallback
sample, so the claimed behavior fails at the exception failure mode. -/
theorem c9_counterexample :
    get_historical_purchases FetchOutcome.exn = [] ∧ fallback_sample ≠ [] := by
  refine ⟨rfl, ?_⟩; simp [fallback_sample]

/-- C9, amended: only the missing-table failure mode yields the fixed
fallback sample (which is nonempty); an exception yields the empty frame,
and the downstream guard of src/app.py line 261 then skips the attribution
and forecast chain instead of feeding it an empty ledger. -/
theorem c9_amended_fallback :
    get_historical_purchases FetchOutcome.noTable = fallback_sample ∧
    fallback_sample ≠ [] ∧
    get_historical_purchases FetchOutcome.exn = [] ∧
    chart_guard (get_historical_purchases FetchOutcome.exn) = false ∧
    chart_guard (get_historical_purchases FetchOutcome.noTable) = true := by
  refine ⟨rfl, ?_, rfl, rfl, ?_⟩ <;> simp [fallback_sample, chart_guard,
    get_historical_purchases]

/- Positivity of the power-law price for every forecast year-end after a
last report year of 2009 or later. -/

lemma ediv_hundred_le_ediv_four {a : ℤ} (ha : 0 ≤ a) : a / 100 ≤ a / 4 := by
  rw [Int.le_ediv_iff_mul_le (by norm_num : (0 : ℤ) < 4)]
  have hmod := Int.ediv_add_emod a 100
  have hnn : 0 ≤ a % 100 := Int.emod_nonneg a (by norm_num)
  have hq : 0 ≤ a / 100 := Int.ediv_nonneg ha (by norm_num)
  linarith

lemma dimb_twelve_lb (b : Bool) : 334 ≤ days_in_months_before 12 b := by
  cases b <;> decide

lemma genesis_ordinal_eq : genesis_ordinal = 733410 := by decide

lemma date_ordinal_dec31_lb {y : ℤ} (hy : 2010 ≤ y) :
    733650 ≤ date_ordinal y 12 31 := by
  unfold date_ordinal
  have h1 : (y - 1) / 100 ≤ (y - 1) / 4 :=
    ediv_hundred_le_ediv_four (by linarith)
  have h2 : 0 ≤ (y - 1) / 400 := Int.ediv_nonneg (by linarith) (by norm_num)
  have h3 := dimb_twelve_lb (is_leap y)
  have h4 : 365 * 2009 ≤ 365 * (y - 1) := by linarith
  linarith

lemma days_from_genesis_pos {y : ℤ} (hy : 2010 ≤ y) :
    0 < date_ordinal y 12 31 - genesis_ordinal := by
  have h1 := date_ordinal_dec31_lb hy
  rw [genesis_ordinal_eq]
  linarith

lemma elapsed_years_pos {y : ℤ} (hy : 2010 ≤ y) : 0 < elapsed_years y 12 31 := by
  unfold elapsed_years
  apply div_pos
  · exact_mod_cast days_from_genesis_pos hy
  · norm_num

lemma proj_price_pos {y : ℤ} (hy : 2010 ≤ y) : 0 < proj_price y := by
  unfold proj_price
  exact mul_pos (Real.rpow_pos_of_pos (by norm_num) _)
    (Real.rpow_pos_of_pos (elapsed_years_pos hy) _)

lemma btc_added_pos {y : ℤ} (hy : 2010 ≤ y) : 0 < btc_added y := by
  unfold btc_added annual_raise
  exact div_pos (by norm_num) (proj_price_pos hy)

/-- C8: safety of the forecast quotient annualBudget / projectedPrice. The
source tests nothing before dividing, and the division-by-zero branch is
unreachable for the reachable inputs: for every forecast year-end whose
year is at least 2010 (every forecast year, once the last report year is
2009 or later, as it is for both the scraped ledger and the fallback
sample), the day count from genesis is positive, hence the elapsed-years
value, the power-law price and the BTC increment are strictly positive. -/
theorem c8_price_positive (y : ℤ) (hy : 2010 ≤ y) :
    0 < date_ordinal y 12 31 - genesis_ordinal ∧
    0 < elapsed_years y 12 31 ∧
    0 < proj_price y ∧
    0 < btc_added y :=
  ⟨days_from_genesis_pos hy, elapsed_years_pos hy, proj_price_pos hy,
    btc_added_pos hy⟩

theorem c8_witness : (2010 : ℤ) ≤ 2027 ∧ 0 < proj_price 2027 :=
  ⟨by norm_num, (c8_price_positive 2027 (by norm_num)).2.2.1⟩

/-- C4: code bug. The Acquisition Forecaster is not a pure function of its
explicit inputs: at src/app.py line 143 the per-source chaining reads the
name df, which is neither a parameter of forecast_acquisitions nor a
module-level binding, so every run reaching that line raises NameError
instead of chaining the forecast per-source cumulative from the
historical tail. -/
theorem c4_name_error (y0 : ℤ) (s : FundingSource) :
    forecast_cum_source_col y0 s =
      Except.error "NameError: name df is not defined" := rfl

/- List lemmas for the monotonicity of cumulative series. -/

lemma cumsum_from_le {α : Type} [LinearOrderedAddCommGroup α] :
    ∀ (xs : List α) (init : α), (∀ x ∈ xs, 0 ≤ x) →
      ∀ z ∈ cumsum_from init xs, init ≤ z := by
  intro xs
  induction xs with
  | nil => intro init h z hz; simp [cumsum_from] at hz
  | cons x t ih =>
    intro init h z hz
    simp only [cumsum_from, List.mem_cons] at hz
    have hx : 0 ≤ x := h x (List.mem_cons_self x t)
    rcases hz with rfl | hz
    · exact le_add_of_nonneg_right hx
    · exact le_trans (le_add_of_nonneg_right hx)
        (ih (init + x) (fun a ha => h a (List.mem_cons_of_mem x ha)) z hz)

lemma cumsum_from_chain {α : Type} [LinearOrderedAddCommGroup α] :
    ∀ (xs : List α) (init : α), (∀ x ∈ xs, 0 ≤ x) →
      List.Chain' (· ≤ ·) (cumsum_from init xs) := by
  intro xs
  induction xs with
  | nil => intro init _; simp [cumsum_from]
  | cons x t ih =>
    intro init h
    have ht : ∀ a ∈ t, 0 ≤ a := fun a ha => h a (List.mem_cons_of_mem x ha)
    simp only [cumsum_from]
    rw [List.chain'_cons']
    refine ⟨?_, ih (init + x) ht⟩
    intro y hy
    exact cumsum_from_le t (init + x) ht y (List.mem_of_mem_head? hy)

lemma getLastD_mem {α : Type} (d : α) : ∀ (l : List α), l ≠ [] → l.getLastD d ∈ l
  | [], h => absurd rfl h
  | a :: t, _ => by
    rw [List.getLastD_cons]
    cases t with
    | nil => simp [List.getLastD]
    | cons b t2 =>
      exact List.mem_cons_of_mem a (getLastD_mem a (b :: t2) (by simp))

lemma cumsum_from_le_getLastD {α : Type} [LinearOrderedAddCommGroup α] :
    ∀ (xs : List α) (init : α), (∀ x ∈ xs, 0 ≤ x) →
      ∀ z ∈ cumsum_from init xs, z ≤ (cumsum_from init xs).getLastD init := by
  intro xs
  induction xs with
  | nil => intro init h z hz; simp [cumsum_from] at hz
  | cons x t ih =>
    intro init h z hz
    have ht : ∀ a ∈ t, 0 ≤ a := fun a ha => h a (List.mem_cons_of_mem x ha)
    simp only [cumsum_from] at hz ⊢
    rw [List.getLastD_cons]
    rcases List.mem_cons.mp hz with rfl | hz2
    · cases t with
      | nil => simp [cumsum_from, List.getLastD]
      | cons b t2 =>
        exact cumsum_from_le (b :: t2) (init + x) ht _
          (getLastD_mem _ _ (by simp [cumsum_from]))
    · exact ih (init + x) ht z hz2

lemma chain_cast {l : List ℚ} (h : List.Chain' (· ≤ ·) l) :
    List.Chain' (· ≤ ·) (l.map (fun q : ℚ => (q : ℝ))) := by
  apply (List.chain'_map (fun q : ℚ => (q : ℝ))).mpr
  apply List.Chain'.imp ?_ h
  intro a b hab
  exact_mod_cast hab

lemma chain_cast_cum {l : List PRecord}
    (h : List.Chain' (· ≤ ·) (l.map (·.cum))) :
    List.Chain' (· ≤ ·) (l.map (fun r : PRecord => (r.cum : ℝ))) := by
  apply (List.chain'_map (fun r : PRecord => (r.cum : ℝ))).mpr
  apply List.Chain'.imp ?_ ((List.chain'_map (fun r : PRecord => r.cum)).mp h)
  intro a b hab
  exact_mod_cast hab

lemma le_col_max {α : Type} [LinearOrder α] (d : α) :
    ∀ (l : List α), ∀ x ∈ l, x ≤ col_max d l
  | [], x, hx => absurd hx (by simp)
  | [a], x, hx => by
    simp only [List.mem_singleton] at hx
    subst hx
    simp [col_max]
  | a :: b :: t, x, hx => by
    rcases List.mem_cons.mp hx with rfl | h2
    · simp only [col_max]
      exact le_max_left _ _
    · simp only [col_max]
      exact le_trans (le_col_max d (b :: t) x h2) (le_max_right _ _)

lemma funding_alloc_nonneg {year : ℤ} {acq : ℚ} (h : 0 ≤ acq) (s : FundingSource) :
    0 ≤ funding_alloc year acq s := by
  cases s <;> simp only [funding_alloc] <;> split_ifs <;>
    first
      | exact le_rfl
      | exact mul_nonneg h (by norm_num)

lemma forecast_alloc_nonneg {b : ℝ} (h : 0 ≤ b) (s : FundingSource) :
    0 ≤ forecast_alloc b s := by
  cases s <;> simp only [forecast_alloc] <;>
    exact mul_nonneg h (by norm_num)

lemma forecast_added_nonneg {y0 : ℤ} (hy : 2009 ≤ y0) :
    ∀ x ∈ forecast_added y0, 0 ≤ x := by
  intro x hx
  simp only [forecast_added, List.mem_map, List.mem_range] at hx
  obtain ⟨k, hk, rfl⟩ := hx
  have hk0 : (0 : ℤ) ≤ (k : ℤ) := Int.natCast_nonneg k
  have h2 : (2010 : ℤ) ≤ y0 + 1 + (k : ℤ) := by linarith
  exact le_of_lt (btc_added_pos h2)

lemma cumsum_head_ge {xs : List ℝ} {init : ℝ} (h : ∀ x ∈ xs, 0 ≤ x) :
    ∀ y ∈ (cumsum_from init xs).head?, init ≤ y := fun y hy =>
  cumsum_from_le xs init h y (List.mem_of_mem_head? hy)

lemma cumsum_forecast_headI (y0 : ℤ) (init : ℝ) :
    (cumsum_from init (forecast_added y0)).headI = init + btc_added (y0 + 1) := by
  simp only [forecast_added]
  rw [List.range_succ_eq_map]
  simp only [List.map_cons, cumsum_from, List.headI]
  norm_num

/-- C3, counterexample: a date-ascending ledger with non-negative
acquisitions whose reported cumulative column decreases (the reported
column is raw provider data, taken as is at src/app.py lines 78 and 266)
yields a concatenated cumulative-total series that is not monotone, even
though the annual budget of the source is positive. -/
theorem c3_counterexample :
    List.Chain' (fun a b => a.year ≤ b.year)
      [PRecord.mk 2020 10 100, PRecord.mk 2021 10 50] ∧
    (∀ r ∈ [PRecord.mk 2020 10 100, PRecord.mk 2021 10 50], 0 ≤ r.acq) ∧
    0 < annual_raise ∧
    ¬ List.Chain' (· ≤ ·)
      (concat_total_series [PRecord.mk 2020 10 100, PRecord.mk 2021 10 50]) := by
  refine ⟨by norm_num [List.chain'_cons], ?_, by norm_num [annual_raise], ?_⟩
  · intro r hr
    fin_cases hr <;> norm_num
  intro hchain
  simp only [concat_total_series, List.map_cons, List.map_nil, List.nil_append,
    List.cons_append, List.chain'_cons] at hchain
  norm_num at hchain

/-- C3, amended: for every nonempty date-ascending ledger with non-negative
acquisitions, whose reported cumulative column is itself non-decreasing
(the reported column is provider data, so its monotonicity is a hypothesis
the original claim lacks), and whose last report year is 2009 or later,
the concatenated cumulative-total series is monotone non-decreasing, every
per-source concatenated cumulative series (per-source forecast chaining
read as intended at src/app.py line 143; the line as written raises
NameError, see C4) is monotone non-decreasing, and the first forecast
record strictly exceeds the last historical cumulative total; the annual
budget of the source is the positive constant 1e10. -/
theorem c3_amended (l : List PRecord) (hne : l ≠ [])
    (hdates : List.Chain' (fun a b => a.year ≤ b.year) l)
    (hacq : ∀ r ∈ l, 0 ≤ r.acq)
    (hcum : List.Chain' (· ≤ ·) (l.map (·.cum)))
    (hyear : 2009 ≤ last_report_year l) :
    List.Chain' (· ≤ ·) (concat_total_series l) ∧
    (∀ s : FundingSource, List.Chain' (· ≤ ·) (concat_source_series l s)) ∧
    ((last_cum_btc l : ℝ) <
      (cumsum_from ((last_cum_btc l : ℚ) : ℝ)
        (forecast_added (last_report_year l))).headI) := by
  have hfa : ∀ x ∈ forecast_added (last_report_year l), 0 ≤ x :=
    forecast_added_nonneg hyear
  refine ⟨?_, ?_, ?_⟩
  · unfold concat_total_series
    rw [List.chain'_append]
    refine ⟨chain_cast_cum hcum, cumsum_from_chain _ _ hfa, ?_⟩
    intro x hx y hy
    have hx2 : x ∈ l.map (fun r : PRecord => (r.cum : ℝ)) := by
      obtain ⟨h1, rfl⟩ := List.mem_getLast?_eq_getLast hx
      exact List.getLast_mem h1
    obtain ⟨r, hr, rfl⟩ := List.mem_map.mp hx2
    have h1 : r.cum ≤ last_cum_btc l :=
      le_col_max 0 (l.map (fun p : PRecord => p.cum)) r.cum
        (List.mem_map_of_mem (fun p : PRecord => p.cum) hr)
    have h2 : ((last_cum_btc l : ℚ) : ℝ) ≤ y := cumsum_head_ge hfa y hy
    have h3 : ((r.cum : ℚ) : ℝ) ≤ ((last_cum_btc l : ℚ) : ℝ) := by
      exact_mod_cast h1
    linarith
  · intro s
    unfold concat_source_series
    rw [List.chain'_append]
    have hal : ∀ x ∈ hist_alloc_col l s, 0 ≤ x := by
      intro x hx
      obtain ⟨r, hr, rfl⟩ := List.mem_map.mp hx
      exact funding_alloc_nonneg (hacq r hr) s
    have hfs : ∀ x ∈ (forecast_added (last_report_year l)).map
        (fun b => forecast_alloc b s), 0 ≤ x := by
      intro x hx
      obtain ⟨b, hb, rfl⟩ := List.mem_map.mp hx
      exact forecast_alloc_nonneg (hfa b hb) s
    refine ⟨chain_cast (cumsum_from_chain _ _ hal), cumsum_from_chain _ _ hfs, ?_⟩
    intro x hx y hy
    have hx2 : x ∈ (hist_cum_col l s).map (fun q : ℚ => (q : ℝ)) := by
      obtain ⟨h1, rfl⟩ := List.mem_getLast?_eq_getLast hx
      exact List.getLast_mem h1
    obtain ⟨q, hq, rfl⟩ := List.mem_map.mp hx2
    have h1 : q ≤ (hist_cum_col l s).getLastD 0 :=
      cumsum_from_le_getLastD (hist_alloc_col l s) 0 hal q hq
    have h2 : (((hist_cum_col l s).getLastD 0 : ℚ) : ℝ) ≤ y :=
      cumsum_head_ge hfs y hy
    have h3 : ((q : ℚ) : ℝ) ≤ (((hist_cum_col l s).getLastD 0 : ℚ) : ℝ) := by
      exact_mod_cast h1
    linarith
  · rw [cumsum_forecast_headI]
    have h1 : 0 < btc_added (last_report_year l + 1) :=
      btc_added_pos (by linarith)
    linarith

theorem c3_witness :
    List.Chain' (· ≤ ·) (concat_total_series fallback_sample) :=
  (c3_amended fallback_sample (by simp [fallback_sample])
    (by norm_num [fallback_sample, List.chain'_cons])
    (by intro r hr; fin_cases hr <;> norm_num)
    (by norm_num [fallback_sample, List.chain'_cons])
    (by norm_num [last_report_year, fallback_sample, col_max])).1
